import Mathlib

/-!
Verification development for the parametric trigger-box analysis core of the
Mapping repository.  The repository contains two sibling implementations of
the same analysis:

* a synchronous Flask-side pair of services
  (`src/app/services/parametric_service.py` for hurricanes and
  `src/app/services/earthquake_parametric_service.py` for earthquakes), and
* a FastAPI service (`src/apps/api/app/services/parametric_service.py`)
  working over dict-shaped records.

Each is embedded separately below (namespaces `Flask`, `FlaskEq`, `API`),
translated directly from the Python source.  Python `float` arithmetic is
idealised as exact rational arithmetic (`ℚ`); `math.exp` based trigger
probabilities are modelled over `ℝ` as separate (noncomputable) functions of
the qualifying annual frequency, so that the rest of each statistics record
stays kernel-evaluable.  Python `datetime` values are reduced to the only
component the analysis reads, their month.
-/

/-- Python `round(x, d)` idealised over `ℚ`: round-half-to-even at `d`
decimal places (CPython's banker's rounding, ignoring binary-float
representation error). -/
def rndHalfToEven (q : ℚ) : ℤ :=
  if q - ⌊q⌋ < 1 / 2 then ⌊q⌋
  else if 1 / 2 < q - ⌊q⌋ then ⌊q⌋ + 1
  else if ⌊q⌋ % 2 = 0 then ⌊q⌋ else ⌊q⌋ + 1

/-- Python `round(x, d)` for `d` decimal digits (see `rndHalfToEven`). -/
def pyRound (q : ℚ) (d : ℕ) : ℚ :=
  (rndHalfToEven (q * (10 : ℚ) ^ d) : ℚ) / (10 : ℚ) ^ d

/-- Python `int(x)`: truncation toward zero. -/
def pyInt (q : ℚ) : ℤ :=
  if 0 ≤ q then ⌊q⌋ else ⌈q⌉

/-- Python `max(l)` guarded by `if l else 0` (`max(values) if values else 0`). -/
def pyMaxInt : List ℤ → ℤ
  | [] => 0
  | x :: xs => xs.foldl max x

/-- Python `max(l)` over floats, guarded by `if l else 0.0`. -/
def pyMaxRat : List ℚ → ℚ
  | [] => 0
  | x :: xs => xs.foldl max x

/-- Python `min(l)` over floats, guarded by `if l else 0.0`. -/
def pyMinRat : List ℚ → ℚ
  | [] => 0
  | x :: xs => xs.foldl min x

/-- Python dict counter update `d[k] = d.get(k, 0) + 1` on an
insertion-ordered association list (a fresh key is appended at the end,
exactly as a Python dict / defaultdict does). -/
def bump {α : Type} [DecidableEq α] (key : α) : List (α × ℕ) → List (α × ℕ)
  | [] => [(key, 1)]
  | (k, v) :: rest => if key = k then (k, v + 1) :: rest else (k, v) :: bump key rest

/-- `TriggerCriteria` from `src/apps/api/app/schemas/parametric.py`.
The Flask app's `app/schemas/parametric.py` is not present in the source
tree; its service calls an identically named `matches(category=…,
wind_knots=…, pressure_mb=…)`, modelled from the spec (§3 variant B /
§4.2) as this same predicate, so the one schema serves both embeddings. -/
structure TriggerCriteria where
  min_category : Option ℤ
  min_wind_knots : Option ℤ
  max_pressure_mb : Option ℤ
deriving DecidableEq

/-- `TriggerCriteria.matches` (`src/apps/api/app/schemas/parametric.py`,
lines 23–32): each configured bound must hold; a configured
`max_pressure_mb` fails when the observed pressure is `None`. -/
def TriggerCriteria.matches (t : TriggerCriteria) (category wind_knots : ℤ)
    (pressure_mb : Option ℤ) : Bool :=
  if (match t.min_category with
      | some m => if category < m then true else false
      | none => false) then false
  else if (match t.min_wind_knots with
      | some m => if wind_knots < m then true else false
      | none => false) then false
  else if (match t.max_pressure_mb with
      | some m => (match pressure_mb with
          | none => true
          | some p => if p > m then true else false)
      | none => false) then false
  else true

/-- `BoundingBox` from `src/apps/api/app/schemas/parametric.py` (the Flask
service uses a box with the same fields; its schema module is absent from
the tree). -/
structure BoundingBox where
  id : String
  name : String
  north : ℚ
  south : ℚ
  east : ℚ
  west : ℚ
  trigger : Option TriggerCriteria
deriving DecidableEq

namespace Flask

/-- `HurricaneTrackPoint` as used by
`src/app/services/parametric_service.py`: the service reads `latitude`,
`longitude`, `wind_knots`, `pressure_mb`, `category` and
`timestamp.month`; the timestamp is reduced to its month. -/
structure HurricaneTrackPoint where
  month : ℤ
  latitude : ℚ
  longitude : ℚ
  wind_knots : ℤ
  pressure_mb : Option ℤ
  category : ℤ
deriving DecidableEq

/-- `HistoricalHurricane`, reduced to the fields the analysis reads
(`storm_id` and the ordered track; the summary metadata is copied through
untouched by the service). -/
structure HistoricalHurricane where
  storm_id : String
  track : List HurricaneTrackPoint
deriving DecidableEq

/-- `BoxIntersection` (fields produced at
`src/app/services/parametric_service.py` lines 245–256; the storm summary
is reduced to `storm_id`). -/
structure BoxIntersection where
  box_id : String
  storm_id : String
  entry_point : HurricaneTrackPoint
  exit_point : Option HurricaneTrackPoint
  max_intensity_in_box : ℤ
  category_at_crossing : ℤ
deriving DecidableEq

/-- `ParametricService._point_in_box` (lines 257–275): inclusive bounds on
both axes. -/
def point_in_box (lat lon : ℚ) (box : BoundingBox) : Bool :=
  if box.south ≤ lat ∧ lat ≤ box.north ∧ box.west ≤ lon ∧ lon ≤ box.east then true
  else false

/-- The `_cross` helper inside `_segments_intersect`
(`src/app/services/parametric_service.py`, module level). -/
def cross (oLat oLon aLat aLon bLat bLon : ℚ) : ℚ :=
  (aLat - oLat) * (bLon - oLon) - (aLon - oLon) * (bLat - oLat)

/-- `_segments_intersect` (module level): strict proper-crossing test via
four signed cross products. -/
def segments_intersect (p1Lat p1Lon p2Lat p2Lon p3Lat p3Lon p4Lat p4Lon : ℚ) : Bool :=
  let d1 := cross p3Lat p3Lon p4Lat p4Lon p1Lat p1Lon
  let d2 := cross p3Lat p3Lon p4Lat p4Lon p2Lat p2Lon
  let d3 := cross p1Lat p1Lon p2Lat p2Lon p3Lat p3Lon
  let d4 := cross p1Lat p1Lon p2Lat p2Lon p4Lat p4Lon
  if ((d1 > 0 ∧ d2 < 0) ∨ (d1 < 0 ∧ d2 > 0)) ∧
     ((d3 > 0 ∧ d4 < 0) ∨ (d3 < 0 ∧ d4 > 0)) then true
  else false

/-- `ParametricService._segment_intersects_box` (lines 276–312): the four
box edges, each tested with `_segments_intersect`. -/
def segment_intersects_box (lat1 lon1 lat2 lon2 : ℚ) (box : BoundingBox) : Bool :=
  segments_intersect lat1 lon1 lat2 lon2 box.south box.west box.south box.east ||
  segments_intersect lat1 lon1 lat2 lon2 box.north box.west box.north box.east ||
  segments_intersect lat1 lon1 lat2 lon2 box.south box.west box.north box.west ||
  segments_intersect lat1 lon1 lat2 lon2 box.south box.east box.north box.east

/-- The scanning loop of `ParametricService._check_track_intersection`
(lines 198–229), with the loop state made explicit: `prev` is
`track[i-1]` (`none` at `i = 0`), `entry`/`maxI` are `entry_point` and
`max_intensity_in_box`.  Returns `(entry_point, exit_point,
max_intensity_in_box)`; the exit is only ever set at the in-to-out `break`
(`exit_point = track[i-1] if i > 0 else None`), and the trailing `if` of
the loop body fires the segment test only while `entry_point is None`. -/
def scan_track (box : BoundingBox) :
    Option HurricaneTrackPoint → Option HurricaneTrackPoint → ℤ →
    List HurricaneTrackPoint →
    Option HurricaneTrackPoint × Option HurricaneTrackPoint × ℤ
  | _, entry, maxI, [] => (entry, none, maxI)
  | prev, entry, maxI, pt :: rest =>
    if point_in_box pt.latitude pt.longitude box && entry.isNone then
      scan_track box (some pt) (some pt) maxI rest
    else if point_in_box pt.latitude pt.longitude box then
      scan_track box (some pt) entry (max maxI pt.wind_knots) rest
    else if entry.isSome then
      (entry, prev, maxI)
    else
      match prev with
      | some pv =>
        if segment_intersects_box pv.latitude pv.longitude pt.latitude pt.longitude box then
          scan_track box (some pt) (some pt) maxI rest
        else
          scan_track box (some pt) none maxI rest
      | none => scan_track box (some pt) none maxI rest

/-- `ParametricService._check_track_intersection` (lines 184–256): run the
scan, and if an entry point was found build the `BoxIntersection`, folding
the entry point's wind into the in-box maximum and taking the crossing
category from the entry point. -/
def check_track_intersection (hurricane : HistoricalHurricane) (box : BoundingBox) :
    Option BoxIntersection :=
  match scan_track box none none 0 hurricane.track with
  | (none, _, _) => none
  | (some entry, exitPt, maxI) =>
    some { box_id := box.id
           storm_id := hurricane.storm_id
           entry_point := entry
           exit_point := exitPt
           max_intensity_in_box := max maxI entry.wind_knots
           category_at_crossing := entry.category }

/-- `ParametricService.find_box_intersections` (lines 130–151). -/
def find_box_intersections (hurricanes : List HistoricalHurricane) (box : BoundingBox) :
    List BoxIntersection :=
  hurricanes.filterMap (fun h => check_track_intersection h box)

/-- `ParametricService.filter_by_trigger_criteria` (lines 153–178): with no
trigger, every intersection qualifies; otherwise `matches` is applied to
the crossing category and the entry point's wind and pressure. -/
def filter_by_trigger_criteria (intersections : List BoxIntersection)
    (trigger : Option TriggerCriteria) : List BoxIntersection :=
  match trigger with
  | none => intersections
  | some t =>
    intersections.filter fun ix =>
      t.matches ix.category_at_crossing ix.entry_point.wind_knots ix.entry_point.pressure_mb

/-- `BoxStatistics` (Flask variant).  The real-valued
`trigger_probability` field is kept outside the record as the function
`Flask.trigger_probability` of the unrounded qualifying annual frequency,
so that the record stays kernel-evaluable. -/
structure BoxStatistics where
  box_id : String
  box_name : String
  total_hurricanes : ℕ
  qualifying_hurricanes : ℕ
  years_analyzed : ℤ
  annual_frequency : ℚ
  qualifying_annual_frequency : ℚ
  category_distribution : List (ℤ × ℕ)
  monthly_distribution : List (ℤ × ℕ)
  average_intensity_knots : ℚ
  max_intensity_knots : ℤ
  trigger_criteria : Option TriggerCriteria
  dataset : String
deriving DecidableEq

/-- `ParametricService.calculate_statistics` (lines 316–384).  Note the
guards `… if years_analyzed else 0.0`: Python falsiness, i.e. only
`years_analyzed == 0` is guarded. -/
def calculate_statistics (intersections : List BoxIntersection) (box : BoundingBox)
    (start_year end_year : ℤ) (trigger : Option TriggerCriteria) (dataset : String) :
    BoxStatistics :=
  let years_analyzed := end_year - start_year + 1
  let total := intersections.length
  let qualifying := filter_by_trigger_criteria intersections trigger
  let qualifying_count := qualifying.length
  let annual_freq : ℚ :=
    if years_analyzed ≠ 0 then (total : ℚ) / (years_analyzed : ℚ) else 0
  let qualifying_freq : ℚ :=
    if years_analyzed ≠ 0 then (qualifying_count : ℚ) / (years_analyzed : ℚ) else 0
  let cat_dist := intersections.foldl (fun d ix => bump ix.category_at_crossing d) []
  let monthly_dist := intersections.foldl (fun d ix => bump ix.entry_point.month d) []
  let wind_values := intersections.map (·.max_intensity_in_box)
  let avg_wind : ℚ :=
    if wind_values.length ≠ 0 then ((wind_values.sum : ℤ) : ℚ) / (wind_values.length : ℚ)
    else 0
  { box_id := box.id
    box_name := box.name
    total_hurricanes := total
    qualifying_hurricanes := qualifying_count
    years_analyzed := years_analyzed
    annual_frequency := pyRound annual_freq 4
    qualifying_annual_frequency := pyRound qualifying_freq 4
    category_distribution := cat_dist
    monthly_distribution := monthly_dist
    average_intensity_knots := pyRound avg_wind 1
    max_intensity_knots := pyMaxInt wind_values
    trigger_criteria := trigger
    dataset := dataset }

open Classical in
/-- The `trigger_prob` expression of `calculate_statistics` (lines
366–367): `1 - math.exp(-qualifying_freq) if qualifying_freq else 0.0`,
as a function over `ℝ` of the unrounded qualifying annual frequency (the
service stores this rounded to 4 places). -/
noncomputable def trigger_probability (qualifying_freq : ℝ) : ℝ :=
  if qualifying_freq = 0 then 0 else 1 - Real.exp (-qualifying_freq)

/-- `ParametricService.analyze_box` (lines 386–414), with the historical
dataset supplied by the caller as in the source. -/
def analyze_box (box : BoundingBox) (hurricanes : List HistoricalHurricane)
    (start_year end_year : ℤ) (dataset : String) : BoxStatistics :=
  calculate_statistics (find_box_intersections hurricanes box) box
    start_year end_year box.trigger dataset

/-- `ParametricService.analyze_multiple_boxes` (lines 416–439): one
`analyze_box` per box over the same dataset. -/
def analyze_multiple_boxes (boxes : List BoundingBox)
    (hurricanes : List HistoricalHurricane)
    (start_year end_year : ℤ) (dataset : String) : List BoxStatistics :=
  boxes.map fun box => analyze_box box hurricanes start_year end_year dataset

end Flask

namespace FlaskEq

/-- `EarthquakeTriggerCriteria` from
`src/app/schemas/earthquake_parametric.py`. -/
structure EarthquakeTriggerCriteria where
  min_magnitude : Option ℚ
  max_depth_km : Option ℚ
  min_depth_km : Option ℚ
deriving DecidableEq

/-- `EarthquakeTriggerCriteria.matches`
(`src/app/schemas/earthquake_parametric.py`, lines 31–47). -/
def EarthquakeTriggerCriteria.matches (t : EarthquakeTriggerCriteria)
    (magnitude depth_km : ℚ) : Bool :=
  if (match t.min_magnitude with
      | some m => if magnitude < m then true else false
      | none => false) then false
  else if (match t.max_depth_km with
      | some d => if depth_km > d then true else false
      | none => false) then false
  else if (match t.min_depth_km with
      | some d => if depth_km < d then true else false
      | none => false) then false
  else true

/-- `EarthquakeBoundingBox` from
`src/app/schemas/earthquake_parametric.py`. -/
structure EarthquakeBoundingBox where
  id : String
  name : String
  north : ℚ
  south : ℚ
  east : ℚ
  west : ℚ
  trigger : Option EarthquakeTriggerCriteria
deriving DecidableEq

/-- `HistoricalEarthquake` reduced to the fields the analysis reads;
`event_time` is reduced to its month (`month`), the only component
`calculate_box_statistics` uses. -/
structure HistoricalEarthquake where
  event_id : String
  magnitude : ℚ
  month : ℤ
  latitude : ℚ
  longitude : ℚ
  depth_km : ℚ
deriving DecidableEq

/-- `EarthquakeParametricService.find_earthquakes_in_box`
(`src/app/services/earthquake_parametric_service.py`, lines 138–157): a
direct inclusive comparison, inlined in a list comprehension. -/
def find_earthquakes_in_box (earthquakes : List HistoricalEarthquake)
    (box : EarthquakeBoundingBox) : List HistoricalEarthquake :=
  earthquakes.filter fun eq =>
    if box.south ≤ eq.latitude ∧ eq.latitude ≤ box.north ∧
       box.west ≤ eq.longitude ∧ eq.longitude ≤ box.east then true
    else false

/-- `EarthquakeParametricService.filter_by_trigger_criteria` (lines
159–180). -/
def filter_by_trigger_criteria (earthquakes : List HistoricalEarthquake)
    (trigger : Option EarthquakeTriggerCriteria) : List HistoricalEarthquake :=
  match trigger with
  | none => earthquakes
  | some t => earthquakes.filter fun eq => t.matches eq.magnitude eq.depth_km

/-- Magnitude bin key `f"{int(eq.magnitude)}-{int(eq.magnitude) + 1}"`
(lines 225–227). -/
def magnitude_bin (m : ℚ) : String :=
  toString (pyInt m) ++ "-" ++ toString (pyInt m + 1)

/-- Depth bin key (lines 229–237). -/
def depth_bin (d : ℚ) : String :=
  if d < 50 then "0-50"
  else if d < 100 then "50-100"
  else if d < 200 then "100-200"
  else "200+"

/-- `EarthquakeBoxStatistics`.  As for the Flask hurricane variant, the
real-valued `trigger_probability` is the function
`FlaskEq.trigger_probability` of the unrounded qualifying annual
frequency, kept outside the record. -/
structure EarthquakeBoxStatistics where
  box_id : String
  box_name : String
  total_earthquakes : ℕ
  qualifying_earthquakes : ℕ
  years_analyzed : ℤ
  annual_frequency : ℚ
  qualifying_annual_frequency : ℚ
  magnitude_distribution : List (String × ℕ)
  depth_distribution : List (String × ℕ)
  monthly_distribution : List (ℤ × ℕ)
  average_magnitude : ℚ
  max_magnitude : ℚ
  average_depth_km : ℚ
  shallowest_depth_km : ℚ
  trigger_criteria : Option EarthquakeTriggerCriteria
  dataset : String
deriving DecidableEq

/-- `EarthquakeParametricService.calculate_box_statistics` (lines
186–275).  The frequency guards are Python falsiness tests
(`… if years_analyzed else 0.0`), so only `years_analyzed == 0` is
special-cased. -/
def calculate_box_statistics (earthquakes : List HistoricalEarthquake)
    (box : EarthquakeBoundingBox) (start_year end_year : ℤ)
    (trigger : Option EarthquakeTriggerCriteria) (dataset : String) :
    EarthquakeBoxStatistics :=
  let years_analyzed := end_year - start_year + 1
  let total := earthquakes.length
  let qualifying := filter_by_trigger_criteria earthquakes trigger
  let qualifying_count := qualifying.length
  let annual_freq : ℚ :=
    if years_analyzed ≠ 0 then (total : ℚ) / (years_analyzed : ℚ) else 0
  let qual_freq : ℚ :=
    if years_analyzed ≠ 0 then (qualifying_count : ℚ) / (years_analyzed : ℚ) else 0
  let mag_dist := earthquakes.foldl (fun d eq => bump (magnitude_bin eq.magnitude) d) []
  let depth_dist := earthquakes.foldl (fun d eq => bump (depth_bin eq.depth_km) d) []
  let monthly_dist := earthquakes.foldl (fun d eq => bump eq.month d) []
  let magnitudes := earthquakes.map (·.magnitude)
  let depths := earthquakes.map (·.depth_km)
  let avg_mag : ℚ :=
    if magnitudes.length ≠ 0 then magnitudes.sum / (magnitudes.length : ℚ) else 0
  let avg_depth : ℚ :=
    if depths.length ≠ 0 then depths.sum / (depths.length : ℚ) else 0
  { box_id := box.id
    box_name := box.name
    total_earthquakes := total
    qualifying_earthquakes := qualifying_count
    years_analyzed := years_analyzed
    annual_frequency := pyRound annual_freq 4
    qualifying_annual_frequency := pyRound qual_freq 4
    magnitude_distribution := mag_dist
    depth_distribution := depth_dist
    monthly_distribution := monthly_dist
    average_magnitude := pyRound avg_mag 2
    max_magnitude := pyRound (pyMaxRat magnitudes) 2
    average_depth_km := pyRound avg_depth 1
    shallowest_depth_km := pyRound (pyMinRat depths) 1
    trigger_criteria := trigger
    dataset := dataset }

open Classical in
/-- The `trigger_prob` expression of `calculate_box_statistics` (lines
254–255): `1 - math.exp(-qual_freq) if qual_freq else 0.0`, over `ℝ`
(stored rounded to 4 places by the service). -/
noncomputable def trigger_probability (qual_freq : ℝ) : ℝ :=
  if qual_freq = 0 then 0 else 1 - Real.exp (-qual_freq)

/-- `EarthquakeParametricService.calculate_statistics` (lines 277–305):
filter to the box, then aggregate with the box's own trigger. -/
def calculate_statistics (box : EarthquakeBoundingBox)
    (all_earthquakes : List HistoricalEarthquake)
    (start_year end_year : ℤ) (dataset : String) : EarthquakeBoxStatistics :=
  calculate_box_statistics (find_earthquakes_in_box all_earthquakes box) box
    start_year end_year box.trigger dataset

/-- `EarthquakeParametricService.calculate_all_statistics` (lines
307–332). -/
def calculate_all_statistics (boxes : List EarthquakeBoundingBox)
    (all_earthquakes : List HistoricalEarthquake)
    (start_year end_year : ℤ) (dataset : String) : List EarthquakeBoxStatistics :=
  boxes.map fun box =>
    calculate_statistics box all_earthquakes start_year end_year dataset

end FlaskEq

namespace API

/-- `wind_to_category` from `src/apps/api/app/utils/weather.py`. -/
def wind_to_category (wind_knots : ℤ) : ℤ :=
  if wind_knots ≥ 137 then 5
  else if wind_knots ≥ 113 then 4
  else if wind_knots ≥ 96 then 3
  else if wind_knots ≥ 83 then 2
  else if wind_knots ≥ 64 then 1
  else 0

/-- A track point as read by
`src/apps/api/app/services/parametric_service.py` from the upstream dict:
`latitude`, `longitude`, `wind_knots`, optional `pressure_mb`, and the
`timestamp` string — reduced here to the month it parses to, or `none`
when missing/unparseable (the `try fromisoformat … except` path). -/
structure TrackPoint where
  month : Option ℤ
  latitude : ℚ
  longitude : ℚ
  wind_knots : ℤ
  pressure_mb : Option ℤ
deriving DecidableEq

/-- A hurricane dict, reduced to the fields the service reads
(`storm_id` and `track`). -/
structure HistoricalHurricane where
  storm_id : String
  track : List TrackPoint
deriving DecidableEq

/-- An intersection dict as built by `find_box_intersections`
(`src/apps/api/app/services/parametric_service.py`, lines 96–124). -/
structure BoxIntersectionRecord where
  storm_id : String
  entry_point : TrackPoint
  exit_point : Option TrackPoint
  max_intensity_in_box : ℤ
  min_pressure_in_box : Option ℤ
  category_at_crossing : ℤ
deriving DecidableEq

/-- `ParametricAnalysisService._point_in_box` (lines 219–224). -/
def point_in_box (lat lon : ℚ) (box : BoundingBox) : Bool :=
  if box.south ≤ lat ∧ lat ≤ box.north ∧ box.west ≤ lon ∧ lon ≤ box.east then true
  else false

/-- The `ccw` helper inside `_segments_intersect` (lines 253–262):
`(cy - ay) * (bx - ax) > (by - ay) * (cx - ax)`. -/
def ccw (ax ay bx bY cx cy : ℚ) : Bool :=
  if (cy - ay) * (bx - ax) > (bY - ay) * (cx - ax) then true else false

/-- `ParametricAnalysisService._segments_intersect` (lines 252–264). -/
def segments_intersect (x1 y1 x2 y2 x3 y3 x4 y4 : ℚ) : Bool :=
  (ccw x1 y1 x3 y3 x4 y4 != ccw x2 y2 x3 y3 x4 y4) &&
  (ccw x1 y1 x2 y2 x3 y3 != ccw x1 y1 x2 y2 x4 y4)

/-- `ParametricAnalysisService._segment_intersects_box` (lines 226–250):
the four edges in (x=lon, y=lat) coordinates, each tested with
`_segments_intersect`. -/
def segment_intersects_box (lat1 lon1 lat2 lon2 : ℚ) (box : BoundingBox) : Bool :=
  segments_intersect lon1 lat1 lon2 lat2 box.west box.north box.east box.north ||
  segments_intersect lon1 lat1 lon2 lat2 box.west box.south box.east box.south ||
  segments_intersect lon1 lat1 lon2 lat2 box.west box.south box.west box.north ||
  segments_intersect lon1 lat1 lon2 lat2 box.east box.south box.east box.north

/-- The per-point state of the scanning loop in
`_check_track_intersection` (lines 149–192). -/
structure ScanState where
  entry_point : Option TrackPoint
  exit_point : Option TrackPoint
  max_intensity : ℤ
  min_pressure : Option ℤ
  was_inside : Bool
deriving DecidableEq

/-- One iteration of the scanning loop of `_check_track_intersection`
(lines 164–192): inside points update the running max wind and min
pressure and (on an outside-to-inside transition) the entry point; an
inside-to-outside transition records the exit point and clears
`was_inside` — the loop never stops early. -/
def scan_step (box : BoundingBox) (s : ScanState) (point : TrackPoint) : ScanState :=
  if point_in_box point.latitude point.longitude box then
    let maxI := if point.wind_knots > s.max_intensity then point.wind_knots else s.max_intensity
    let minP := match point.pressure_mb with
      | none => s.min_pressure
      | some p => match s.min_pressure with
        | none => some p
        | some mp => if p < mp then some p else some mp
    if s.was_inside then
      { s with max_intensity := maxI, min_pressure := minP }
    else
      { entry_point := some point
        exit_point := s.exit_point
        max_intensity := maxI
        min_pressure := minP
        was_inside := true }
  else
    if s.was_inside then
      { s with exit_point := some point, was_inside := false }
    else s

/-- The full point scan of `_check_track_intersection`. -/
def scan_track (box : BoundingBox) (track : List TrackPoint) : ScanState :=
  track.foldl (scan_step box) ⟨none, none, 0, none, false⟩

/-- The segment fallback of `_check_track_intersection` (lines 194–215):
only reached when the point scan found no entry; the first consecutive
pair whose segment crosses the box synthesizes
`(p1, p2, max wind, lesser known pressure)`. -/
def segment_phase (box : BoundingBox) :
    List TrackPoint → Option (TrackPoint × Option TrackPoint × ℤ × Option ℤ)
  | p1 :: p2 :: rest =>
    if segment_intersects_box p1.latitude p1.longitude p2.latitude p2.longitude box then
      some (p1, some p2, max p1.wind_knots p2.wind_knots,
        match p1.pressure_mb, p2.pressure_mb with
        | some a, some b => some (min a b)
        | some a, none => some a
        | none, some b => some b
        | none, none => none)
    else segment_phase box (p2 :: rest)
  | _ => none

/-- `ParametricAnalysisService._check_track_intersection` (lines
149–217): the point scan, falling back to the segment phase when no
track point ever landed inside the box. -/
def check_track_intersection (track : List TrackPoint) (box : BoundingBox) :
    Option (TrackPoint × Option TrackPoint × ℤ × Option ℤ) :=
  let s := scan_track box track
  match s.entry_point with
  | some e => some (e, s.exit_point, s.max_intensity, s.min_pressure)
  | none => segment_phase box track

/-- `ParametricAnalysisService.find_box_intersections` (lines 96–124):
note `category_at_crossing = wind_to_category(max_intensity)`. -/
def find_box_intersections (hurricanes : List HistoricalHurricane)
    (box : BoundingBox) : List BoxIntersectionRecord :=
  hurricanes.filterMap fun h =>
    (check_track_intersection h.track box).map fun r =>
      { storm_id := h.storm_id
        entry_point := r.1
        exit_point := r.2.1
        max_intensity_in_box := r.2.2.1
        min_pressure_in_box := r.2.2.2
        category_at_crossing := wind_to_category r.2.2.1 }

/-- `ParametricAnalysisService.filter_by_trigger_criteria` (lines
126–147): `matches` is applied to the crossing category, the in-box max
wind and the in-box min pressure. -/
def filter_by_trigger_criteria (intersections : List BoxIntersectionRecord)
    (trigger : Option TriggerCriteria) : List BoxIntersectionRecord :=
  match trigger with
  | none => intersections
  | some t =>
    intersections.filter fun ix =>
      t.matches ix.category_at_crossing ix.max_intensity_in_box ix.min_pressure_in_box

/-- `BoxStatistics` (FastAPI variant; no display rounding is applied by
this service).  The real-valued `trigger_probability` is the function
`API.trigger_probability` of the qualifying annual frequency. -/
structure BoxStatistics where
  box_id : String
  box_name : String
  total_hurricanes : ℕ
  qualifying_hurricanes : ℕ
  years_analyzed : ℤ
  annual_frequency : ℚ
  qualifying_annual_frequency : ℚ
  category_distribution : List (ℤ × ℕ)
  monthly_distribution : List (ℤ × ℕ)
  average_intensity_knots : ℚ
  max_intensity_knots : ℤ
  trigger_criteria : Option TriggerCriteria
  dataset : String
deriving DecidableEq

/-- `ParametricAnalysisService.calculate_statistics` (lines 268–337).
Frequencies are guarded by `if years_analyzed > 0 else 0`; the monthly
histogram skips entries whose timestamp did not parse. -/
def calculate_statistics (intersections : List BoxIntersectionRecord)
    (box : BoundingBox) (start_year end_year : ℤ) (dataset : String) :
    BoxStatistics :=
  let years_analyzed := end_year - start_year + 1
  let total := intersections.length
  let qualifying := filter_by_trigger_criteria intersections box.trigger
  let qualifying_count := qualifying.length
  let cat_dist := intersections.foldl (fun d ix => bump ix.category_at_crossing d) []
  let monthly_dist := intersections.foldl
    (fun d ix => match ix.entry_point.month with
      | some m => bump m d
      | none => d) []
  let intensities := intersections.map (·.max_intensity_in_box)
  let avg_intensity : ℚ :=
    if intensities.length ≠ 0 then ((intensities.sum : ℤ) : ℚ) / (intensities.length : ℚ)
    else 0
  let annual_frequency : ℚ :=
    if years_analyzed > 0 then (total : ℚ) / (years_analyzed : ℚ) else 0
  let qualifying_annual_frequency : ℚ :=
    if years_analyzed > 0 then (qualifying_count : ℚ) / (years_analyzed : ℚ) else 0
  { box_id := box.id
    box_name := box.name
    total_hurricanes := total
    qualifying_hurricanes := qualifying_count
    years_analyzed := years_analyzed
    annual_frequency := annual_frequency
    qualifying_annual_frequency := qualifying_annual_frequency
    category_distribution := cat_dist
    monthly_distribution := monthly_dist
    average_intensity_knots := avg_intensity
    max_intensity_knots := pyMaxInt intensities
    trigger_criteria := box.trigger
    dataset := dataset }

open Classical in
/-- The `trigger_probability` expression of `calculate_statistics` (lines
318–320): `1 - math.exp(-qualifying_annual_frequency) if
qualifying_annual_frequency > 0 else 0`, over `ℝ`. -/
noncomputable def trigger_probability (qualifying_annual_frequency : ℝ) : ℝ :=
  if qualifying_annual_frequency > 0 then
    1 - Real.exp (-qualifying_annual_frequency)
  else 0

/-- `ParametricAnalysisService.analyze_box` (lines 339–367), with the
fetched historical dataset supplied as a parameter (the source fetches it
with the same arguments the bulk path uses). -/
def analyze_box (box : BoundingBox) (hurricanes : List HistoricalHurricane)
    (start_year end_year : ℤ) (dataset : String) : BoxStatistics :=
  calculate_statistics (find_box_intersections hurricanes box) box
    start_year end_year dataset

/-- `ParametricAnalysisService.analyze_multiple_boxes` (lines 369–401):
the dataset is fetched once and each box is analysed against it, the
results keyed by box id (the Python dict is modelled as the
insertion-ordered association list). -/
def analyze_multiple_boxes (boxes : List BoundingBox)
    (hurricanes : List HistoricalHurricane)
    (start_year end_year : ℤ) (dataset : String) : List (String × BoxStatistics) :=
  boxes.map fun box =>
    (box.id,
     calculate_statistics (find_box_intersections hurricanes box) box
       start_year end_year dataset)

end API

/-! ### Helper lemmas -/

theorem floor_le_rndHalfToEven (q : ℚ) : ⌊q⌋ ≤ rndHalfToEven q := by
  unfold rndHalfToEven
  split_ifs <;> omega

theorem rndHalfToEven_le_floor_add_one (q : ℚ) : rndHalfToEven q ≤ ⌊q⌋ + 1 := by
  unfold rndHalfToEven
  split_ifs <;> omega

theorem rndHalfToEven_mono {a b : ℚ} (h : a ≤ b) :
    rndHalfToEven a ≤ rndHalfToEven b := by
  rcases lt_or_eq_of_le (Int.floor_mono h) with hf | hf
  · calc rndHalfToEven a ≤ ⌊a⌋ + 1 := rndHalfToEven_le_floor_add_one a
    _ ≤ ⌊b⌋ := by omega
    _ ≤ rndHalfToEven b := floor_le_rndHalfToEven b
  · unfold rndHalfToEven
    rw [← hf]
    split_ifs <;> first | omega | linarith

theorem pyRound_mono {a b : ℚ} (d : ℕ) (h : a ≤ b) : pyRound a d ≤ pyRound b d := by
  unfold pyRound
  have hp : (0 : ℚ) < (10 : ℚ) ^ d := by positivity
  have := rndHalfToEven_mono (mul_le_mul_of_nonneg_right h (le_of_lt hp))
  exact div_le_div_of_nonneg_right (by exact_mod_cast this) hp.le

theorem pyRound_zero (d : ℕ) : pyRound 0 d = 0 := by
  simp [pyRound, rndHalfToEven]

theorem flask_filter_nil (trig : Option TriggerCriteria) :
    Flask.filter_by_trigger_criteria [] trig = [] := by
  cases trig <;> rfl

theorem flaskeq_filter_nil (trig : Option FlaskEq.EarthquakeTriggerCriteria) :
    FlaskEq.filter_by_trigger_criteria [] trig = [] := by
  cases trig <;> rfl

theorem api_filter_nil (trig : Option TriggerCriteria) :
    API.filter_by_trigger_criteria [] trig = [] := by
  cases trig <;> rfl

theorem flask_filter_length_le (l : List Flask.BoxIntersection)
    (trig : Option TriggerCriteria) :
    (Flask.filter_by_trigger_criteria l trig).length ≤ l.length := by
  cases trig with
  | none => exact le_refl _
  | some t => exact List.length_filter_le _ _

theorem flaskeq_filter_length_le (l : List FlaskEq.HistoricalEarthquake)
    (trig : Option FlaskEq.EarthquakeTriggerCriteria) :
    (FlaskEq.filter_by_trigger_criteria l trig).length ≤ l.length := by
  cases trig with
  | none => exact le_refl _
  | some t => exact List.length_filter_le _ _

theorem api_filter_length_le (l : List API.BoxIntersectionRecord)
    (trig : Option TriggerCriteria) :
    (API.filter_by_trigger_criteria l trig).length ≤ l.length := by
  cases trig with
  | none => exact le_refl _
  | some t => exact List.length_filter_le _ _

theorem flask_trigger_probability_eq (x : ℝ) :
    Flask.trigger_probability x = 1 - Real.exp (-x) := by
  unfold Flask.trigger_probability
  split_ifs with h
  · simp [h]
  · rfl

theorem flaskeq_trigger_probability_eq (x : ℝ) :
    FlaskEq.trigger_probability x = 1 - Real.exp (-x) := by
  unfold FlaskEq.trigger_probability
  split_ifs with h
  · simp [h]
  · rfl

theorem api_trigger_probability_nonneg (x : ℝ) : 0 ≤ API.trigger_probability x := by
  unfold API.trigger_probability
  split_ifs with h
  · have : Real.exp (-x) ≤ 1 := by
      rw [← Real.exp_zero]
      exact Real.exp_le_exp.mpr (by linarith)
    linarith
  · exact le_refl 0

theorem api_trigger_probability_lt_one (x : ℝ) : API.trigger_probability x < 1 := by
  unfold API.trigger_probability
  split_ifs with h
  · have := Real.exp_pos (-x)
    linarith
  · exact zero_lt_one

theorem api_trigger_probability_mono : Monotone API.trigger_probability := by
  intro a b hab
  unfold API.trigger_probability
  split_ifs with ha hb
  · have : Real.exp (-b) ≤ Real.exp (-a) := Real.exp_le_exp.mpr (by linarith)
    linarith
  · linarith
  · have : Real.exp (-b) < 1 := by
      rw [← Real.exp_zero]
      exact Real.exp_lt_exp.mpr (by linarith)
    linarith
  · exact le_refl 0

theorem flask_trigger_probability_mono : Monotone Flask.trigger_probability := by
  intro a b hab
  rw [flask_trigger_probability_eq, flask_trigger_probability_eq]
  have : Real.exp (-b) ≤ Real.exp (-a) := Real.exp_le_exp.mpr (by linarith)
  linarith

theorem flask_trigger_probability_nonneg {x : ℝ} (hx : 0 ≤ x) :
    0 ≤ Flask.trigger_probability x := by
  rw [flask_trigger_probability_eq]
  have : Real.exp (-x) ≤ 1 := by
    rw [← Real.exp_zero]
    exact Real.exp_le_exp.mpr (by linarith)
  linarith

theorem flask_trigger_probability_lt_one (x : ℝ) : Flask.trigger_probability x < 1 := by
  rw [flask_trigger_probability_eq]
  have := Real.exp_pos (-x)
  linarith

theorem flask_scan_entry_stays (box : BoundingBox) (e : Flask.HurricaneTrackPoint) :
    ∀ (l : List Flask.HurricaneTrackPoint) (prev : Option Flask.HurricaneTrackPoint)
      (maxI : ℤ), (Flask.scan_track box prev (some e) maxI l).1 = some e := by
  intro l
  induction l with
  | nil => intro prev maxI; simp [Flask.scan_track]
  | cons pt rest ih =>
    intro prev maxI
    by_cases hin : Flask.point_in_box pt.latitude pt.longitude box = true
    · simp [Flask.scan_track, hin, ih]
    · simp only [Bool.not_eq_true] at hin
      simp [Flask.scan_track, hin]

theorem flask_scan_finds (box : BoundingBox) :
    ∀ (l : List Flask.HurricaneTrackPoint) (prev : Option Flask.HurricaneTrackPoint)
      (maxI : ℤ),
      (∃ pt ∈ l, Flask.point_in_box pt.latitude pt.longitude box = true) →
      (Flask.scan_track box prev none maxI l).1.isSome := by
  intro l
  induction l with
  | nil => intro prev maxI h; simp at h
  | cons pt rest ih =>
    intro prev maxI h
    by_cases hpt : Flask.point_in_box pt.latitude pt.longitude box = true
    · simp [Flask.scan_track, hpt, flask_scan_entry_stays]
    · obtain ⟨x, hx, hin⟩ := h
      rcases List.mem_cons.mp hx with rfl | hxrest
      · exact absurd hin hpt
      · simp only [Bool.not_eq_true] at hpt
        cases prev with
        | none =>
          simp only [Flask.scan_track, hpt, Bool.false_and, if_false,
            Option.isNone_none, Bool.and_true, Option.isSome_none]
          exact ih (some pt) maxI ⟨x, hxrest, hin⟩
        | some pv =>
          by_cases hseg : Flask.segment_intersects_box pv.latitude pv.longitude
              pt.latitude pt.longitude box = true
          · simp [Flask.scan_track, hpt, hseg, flask_scan_entry_stays]
          · simp only [Bool.not_eq_true] at hseg
            simp only [Flask.scan_track, hpt, Bool.false_and, if_false, hseg,
              Option.isNone_none, Bool.and_true, Option.isSome_none]
            exact ih (some pt) maxI ⟨x, hxrest, hin⟩

theorem flask_scan_break (box : BoundingBox) :
    ∀ (l : List Flask.HurricaneTrackPoint) (prev entry : Option Flask.HurricaneTrackPoint)
      (maxI : ℤ) (extra : List Flask.HurricaneTrackPoint),
      (Flask.scan_track box prev entry maxI l).2.1.isSome = true →
      Flask.scan_track box prev entry maxI (l ++ extra) =
        Flask.scan_track box prev entry maxI l := by
  intro l
  induction l with
  | nil => intro prev entry maxI extra h; simp [Flask.scan_track] at h
  | cons pt rest ih =>
    intro prev entry maxI extra h
    by_cases hpt : Flask.point_in_box pt.latitude pt.longitude box = true
    · by_cases hen : entry.isNone = true
      · simp only [Flask.scan_track, List.cons_append, hpt, hen, Bool.and_self,
          if_true, true_and] at h ⊢
        exact ih _ _ _ extra h
      · simp only [Bool.not_eq_true] at hen
        simp only [Flask.scan_track, List.cons_append, hpt, hen, Bool.and_false,
          if_false, if_true] at h ⊢
        exact ih _ _ _ extra h
    · simp only [Bool.not_eq_true] at hpt
      by_cases hes : entry.isSome = true
      · simp [Flask.scan_track, List.cons_append, hpt, hes]
      · simp only [Bool.not_eq_true, Option.not_isSome,
          Option.isNone_iff_eq_none] at hes
        subst hes
        cases prev with
        | none =>
          simp only [Flask.scan_track, List.cons_append, hpt, Bool.false_and,
            if_false, Option.isNone_none, Option.isSome_none, Bool.and_true] at h ⊢
          exact ih _ _ _ extra h
        | some pv =>
          by_cases hseg : Flask.segment_intersects_box pv.latitude pv.longitude
              pt.latitude pt.longitude box = true
          · simp only [Flask.scan_track, List.cons_append, hpt, hseg, Bool.false_and,
              if_false, Option.isNone_none, Option.isSome_none, Bool.and_true,
              if_true] at h ⊢
            exact ih _ _ _ extra h
          · simp only [Bool.not_eq_true] at hseg
            simp only [Flask.scan_track, List.cons_append, hpt, hseg, Bool.false_and,
              if_false, Option.isNone_none, Option.isSome_none, Bool.and_true] at h ⊢
            exact ih _ _ _ extra h

theorem api_scan_step_outside (box : BoundingBox) (s : API.ScanState)
    (pt : API.TrackPoint)
    (hpt : API.point_in_box pt.latitude pt.longitude box = false)
    (hws : s.was_inside = false) : API.scan_step box s pt = s := by
  simp [API.scan_step, hpt, hws]

theorem api_scan_outside (box : BoundingBox) :
    ∀ (l : List API.TrackPoint) (s : API.ScanState),
      (∀ pt ∈ l, API.point_in_box pt.latitude pt.longitude box = false) →
      s.was_inside = false → l.foldl (API.scan_step box) s = s := by
  intro l
  induction l with
  | nil => intro s _ _; rfl
  | cons pt rest ih =>
    intro s h hws
    rw [List.foldl_cons, api_scan_step_outside box s pt (h pt (by simp)) hws]
    exact ih s (fun x hx => h x (by simp [hx])) hws

theorem api_check_no_inside (box : BoundingBox) (track : List API.TrackPoint)
    (h : ∀ pt ∈ track, API.point_in_box pt.latitude pt.longitude box = false) :
    API.check_track_intersection track box = API.segment_phase box track := by
  unfold API.check_track_intersection API.scan_track
  rw [api_scan_outside box track _ h rfl]

theorem api_category_from_max_intensity (box : BoundingBox)
    (hurricanes : List API.HistoricalHurricane) (ix : API.BoxIntersectionRecord)
    (hmem : ix ∈ API.find_box_intersections hurricanes box) :
    ix.category_at_crossing = API.wind_to_category ix.max_intensity_in_box := by
  unfold API.find_box_intersections at hmem
  rw [List.mem_filterMap] at hmem
  obtain ⟨h, _, heq⟩ := hmem
  rcases ho : API.check_track_intersection h.track box with _ | r
  · rw [ho] at heq
    simp at heq
  · rw [ho] at heq
    rw [Option.map_some'] at heq
    cases heq
    rfl

theorem api_scan_max_intensity (box : BoundingBox) :
    ∀ (l : List API.TrackPoint) (s : API.ScanState),
      (l.foldl (API.scan_step box) s).max_intensity =
        l.foldl
          (fun m pt =>
            if API.point_in_box pt.latitude pt.longitude box = true then
              (if pt.wind_knots > m then pt.wind_knots else m)
            else m) s.max_intensity := by
  intro l
  induction l with
  | nil => intro s; rfl
  | cons pt rest ih =>
    intro s
    rw [List.foldl_cons, List.foldl_cons, ih]
    congr 1
    by_cases hpt : API.point_in_box pt.latitude pt.longitude box = true
    · by_cases hws : s.was_inside = true <;> simp [API.scan_step, hpt, hws]
    · simp only [Bool.not_eq_true] at hpt
      by_cases hws : s.was_inside = true <;> simp [API.scan_step, hpt, hws]

/-! ### Concrete fixtures used by witnesses and counterexamples -/

/-- The spec §8 scenario box: north 30, south 20, east −80, west −100. -/
def boxA : BoundingBox := ⟨"b1", "Gulf box", 30, 20, -80, -100, none⟩

/-- An inverted box (north < south). -/
def invBox : BoundingBox := ⟨"ib", "inverted", 20, 30, -80, -100, none⟩

def fp0 : Flask.HurricaneTrackPoint := ⟨8, 15, -90, 50, some 1000, 0⟩

def fp1 : Flask.HurricaneTrackPoint := ⟨8, 25, -90, 150, some 940, 2⟩

def fp2 : Flask.HurricaneTrackPoint := ⟨9, 35, -90, 40, none, 0⟩

/-- A storm crossing `boxA` south to north with exactly one in-box point. -/
def strm3 : Flask.HistoricalHurricane := ⟨"AL012020", [fp0, fp1, fp2]⟩

def cq0 : Flask.HurricaneTrackPoint := ⟨7, 25, -101, 60, some 990, 1⟩

def cq1 : Flask.HurricaneTrackPoint := ⟨7, 19, -99, 50, some 1000, 0⟩

/-- A two-point storm that clips the south-west corner of `boxA` without
either endpoint being inside. -/
def clipStorm : Flask.HistoricalHurricane := ⟨"AL022020", [cq0, cq1]⟩

def ap0 : API.TrackPoint := ⟨some 8, 15, -90, 50, some 1000⟩

def ap1 : API.TrackPoint := ⟨some 8, 25, -90, 70, some 990⟩

def ap1b : API.TrackPoint := ⟨some 8, 26, -90, 150, some 930⟩

def ap2 : API.TrackPoint := ⟨some 9, 35, -90, 40, none⟩

/-- An API storm with two in-box points of different intensity. -/
def apStorm : API.HistoricalHurricane := ⟨"AL032020", [ap0, ap1, ap1b, ap2]⟩

def bq0 : API.TrackPoint := ⟨some 7, 25, -90, 50, some 995⟩

def bq1 : API.TrackPoint := ⟨some 7, 35, -90, 60, none⟩

def bq2 : API.TrackPoint := ⟨some 8, 27, -90, 140, some 940⟩

def bq3 : API.TrackPoint := ⟨some 8, 36, -90, 45, none⟩

/-- An API storm that leaves `boxA` and re-enters it later. -/
def reentryStorm : API.HistoricalHurricane := ⟨"AL042020", [bq0, bq1, bq2, bq3]⟩

def ar0 : API.TrackPoint := ⟨some 6, 19, -90, 70, none⟩

def ar1 : API.TrackPoint := ⟨some 6, 31, -90, 80, none⟩

def rf0 : Flask.HurricaneTrackPoint := ⟨6, 19, -90, 70, none, 1⟩

def rf1 : Flask.HurricaneTrackPoint := ⟨6, 31, -90, 80, none, 1⟩

/-- A storm whose track crosses the edge lines of the inverted box. -/
def invStorm : Flask.HistoricalHurricane := ⟨"AL052020", [rf0, rf1]⟩

def eqk1 : FlaskEq.HistoricalEarthquake := ⟨"ev1", 5, 3, 25, -90, 10⟩

def eqk2 : FlaskEq.HistoricalEarthquake := ⟨"ev2", 7, 4, 26, -91, 20⟩

def eqBoxA : FlaskEq.EarthquakeBoundingBox := ⟨"e1", "eq box", 30, 20, -80, -100, none⟩

def trigM6 : FlaskEq.EarthquakeTriggerCriteria := ⟨some 6, none, none⟩

/-! ### Claims -/

/-- Claim C1: for every bounding box, optional trigger, year range and
dataset label, the statistics computation applied to an empty list of
in-box events/intersections returns total count 0, qualifying count 0,
empty distribution maps, zero average/max intensity, magnitude and depth
fields, and a trigger probability of exactly 0 — in all three
implementations (the embedding is total, so no exception is possible). -/
theorem claim_C1_empty_statistics
    (box : BoundingBox) (ebox : FlaskEq.EarthquakeBoundingBox)
    (start_year end_year : ℤ) (trig : Option TriggerCriteria)
    (etrig : Option FlaskEq.EarthquakeTriggerCriteria) (ds : String) :
    Flask.calculate_statistics [] box start_year end_year trig ds =
      ⟨box.id, box.name, 0, 0, end_year - start_year + 1, 0, 0, [], [], 0, 0, trig, ds⟩ ∧
    FlaskEq.calculate_box_statistics [] ebox start_year end_year etrig ds =
      ⟨ebox.id, ebox.name, 0, 0, end_year - start_year + 1, 0, 0, [], [], [],
        0, 0, 0, 0, etrig, ds⟩ ∧
    API.calculate_statistics [] box start_year end_year ds =
      ⟨box.id, box.name, 0, 0, end_year - start_year + 1, 0, 0, [], [], 0, 0,
        box.trigger, ds⟩ ∧
    Flask.trigger_probability 0 = 0 ∧
    FlaskEq.trigger_probability 0 = 0 ∧
    API.trigger_probability 0 = 0 := by
  refine ⟨?_, ?_, ?_, ?_, ?_, ?_⟩
  · simp [Flask.calculate_statistics, flask_filter_nil, pyRound_zero, pyMaxInt]
  · simp [FlaskEq.calculate_box_statistics, flaskeq_filter_nil, pyRound_zero,
      pyMaxRat, pyMinRat]
  · simp [API.calculate_statistics, api_filter_nil, pyMaxInt]
  · simp [Flask.trigger_probability]
  · simp [FlaskEq.trigger_probability]
  · simp [API.trigger_probability]

/-- Claim C9: for every single box, event list, year range and dataset,
the multi-box analysis applied to the singleton collection yields exactly
the single-box analysis result, up to wrapping in a one-element list (or
one-entry box-id-keyed map for the FastAPI service) — in all three
implementations.  The shared historical dataset is the common list
argument. -/
theorem claim_C9_singleton_equivalence
    (b : BoundingBox) (eb : FlaskEq.EarthquakeBoundingBox)
    (hs : List Flask.HistoricalHurricane) (ahs : List API.HistoricalHurricane)
    (eqs : List FlaskEq.HistoricalEarthquake) (start_year end_year : ℤ)
    (ds : String) :
    Flask.analyze_multiple_boxes [b] hs start_year end_year ds =
      [Flask.analyze_box b hs start_year end_year ds] ∧
    API.analyze_multiple_boxes [b] ahs start_year end_year ds =
      [(b.id, API.analyze_box b ahs start_year end_year ds)] ∧
    FlaskEq.calculate_all_statistics [eb] eqs start_year end_year ds =
      [FlaskEq.calculate_statistics eb eqs start_year end_year ds] :=
  ⟨rfl, rfl, rfl⟩


/-- Claim C4: trigger matching returns true iff every configured
(non-`none`) threshold field is satisfied (`category ≥ min_category`,
`wind ≥ min_wind_knots`, `pressure ≤ max_pressure_mb` for hurricanes;
`magnitude ≥ min_magnitude`, `depth ≤ max_depth_km`, `depth ≥
min_depth_km` for earthquakes); an all-unset criteria matches everything;
an absent (`none`) criteria at the filter level matches everything; and a
configured `max_pressure_mb` check fails when the observed pressure is
`none`. -/
theorem claim_C4_trigger_matches :
    (∀ (t : TriggerCriteria) (category wind_knots : ℤ) (pressure_mb : Option ℤ),
      t.matches category wind_knots pressure_mb = true ↔
        ((∀ m ∈ t.min_category, m ≤ category) ∧
         (∀ m ∈ t.min_wind_knots, m ≤ wind_knots) ∧
         (∀ m ∈ t.max_pressure_mb, ∃ p ∈ pressure_mb, p ≤ m))) ∧
    (∀ (category wind_knots : ℤ) (pressure_mb : Option ℤ),
      TriggerCriteria.matches ⟨none, none, none⟩ category wind_knots pressure_mb = true) ∧
    (∀ (category wind_knots m : ℤ),
      TriggerCriteria.matches ⟨none, none, some m⟩ category wind_knots none = false) ∧
    (∀ (c : FlaskEq.EarthquakeTriggerCriteria) (magnitude depth_km : ℚ),
      c.matches magnitude depth_km = true ↔
        ((∀ m ∈ c.min_magnitude, m ≤ magnitude) ∧
         (∀ d ∈ c.max_depth_km, depth_km ≤ d) ∧
         (∀ d ∈ c.min_depth_km, d ≤ depth_km))) ∧
    (∀ (magnitude depth_km : ℚ),
      FlaskEq.EarthquakeTriggerCriteria.matches ⟨none, none, none⟩ magnitude depth_km = true) ∧
    (∀ l : List Flask.BoxIntersection, Flask.filter_by_trigger_criteria l none = l) ∧
    (∀ l : List FlaskEq.HistoricalEarthquake, FlaskEq.filter_by_trigger_criteria l none = l) ∧
    (∀ l : List API.BoxIntersectionRecord, API.filter_by_trigger_criteria l none = l) := by
  refine ⟨?_, fun _ _ _ => rfl, fun _ _ _ => rfl, ?_, fun _ _ => rfl,
    fun _ => rfl, fun _ => rfl, fun _ => rfl⟩
  · rintro ⟨mc, mw, mp⟩ category wind_knots pressure_mb
    cases mc <;> cases mw <;> cases mp <;> cases pressure_mb <;>
      simp [TriggerCriteria.matches]
  · rintro ⟨mm, mxd, mnd⟩ magnitude depth_km
    cases mm <;> cases mxd <;> cases mnd <;>
      simp [FlaskEq.EarthquakeTriggerCriteria.matches]

/-- Claim C4 witness: the characterisation instantiated at a concrete
criteria and observation — a criteria requiring category ≥ 3, wind ≥ 100
and pressure ≤ 950 matches the observation (4, 120, 940). -/
theorem claim_C4_trigger_matches_witness :
    TriggerCriteria.matches ⟨some 3, some 100, some 950⟩ 4 120 (some 940) = true ∧
    FlaskEq.EarthquakeTriggerCriteria.matches ⟨some 4, some 100, some 5⟩ 5 50 = true :=
  ⟨(claim_C4_trigger_matches.1 ⟨some 3, some 100, some 950⟩ 4 120 (some 940)).mpr
     (by simp),
   (claim_C4_trigger_matches.2.2.2.1 ⟨some 4, some 100, some 5⟩ 5 50).mpr
     (by norm_num)⟩

/-- Claim C2 counterexample: in the Flask earthquake service, a reversed
year range (`start_year = 2020`, `end_year = 2018`, so `years_analyzed =
-1 ≤ 0`) with one event yields `annual_frequency = -1`, not the `0.0` the
claim requires for every `years_analyzed ≤ 0` — the code only
special-cases `years_analyzed == 0` (Python falsiness), and divides by
negative year counts. -/
theorem claim_C2_counterexample :
    (FlaskEq.calculate_box_statistics [eqk1] eqBoxA 2020 2018 none
        "usgs_worldwide").years_analyzed = -1 ∧
    (FlaskEq.calculate_box_statistics [eqk1] eqBoxA 2020 2018 none
        "usgs_worldwide").annual_frequency = -1 ∧
    (FlaskEq.calculate_box_statistics [eqk1] eqBoxA 2020 2018 none
        "usgs_worldwide").qualifying_annual_frequency = -1 := by
  refine ⟨rfl, ?_, ?_⟩ <;>
    norm_num [FlaskEq.calculate_box_statistics, FlaskEq.filter_by_trigger_criteria,
      pyRound, rndHalfToEven]

/-- Claim C2 (amended): when `years_analyzed = end_year - start_year + 1`
is exactly 0, all three implementations report both frequencies as 0.0
without dividing by zero or raising; the FastAPI implementation reports
0.0 for every `years_analyzed ≤ 0`, but the two Flask implementations
divide by a negative `years_analyzed`, producing `count / years` (a
non-positive frequency) instead of 0.0. -/
theorem claim_C2_amended
    (ixs : List Flask.BoxIntersection) (eqs : List FlaskEq.HistoricalEarthquake)
    (aixs : List API.BoxIntersectionRecord) (box : BoundingBox)
    (ebox : FlaskEq.EarthquakeBoundingBox) (start_year end_year : ℤ)
    (trig : Option TriggerCriteria) (etrig : Option FlaskEq.EarthquakeTriggerCriteria)
    (ds : String) :
    (end_year - start_year + 1 = 0 →
      (Flask.calculate_statistics ixs box start_year end_year trig ds).annual_frequency = 0 ∧
      (Flask.calculate_statistics ixs box start_year end_year trig ds).qualifying_annual_frequency = 0 ∧
      (FlaskEq.calculate_box_statistics eqs ebox start_year end_year etrig ds).annual_frequency = 0 ∧
      (FlaskEq.calculate_box_statistics eqs ebox start_year end_year etrig ds).qualifying_annual_frequency = 0) ∧
    (end_year - start_year + 1 ≤ 0 →
      (API.calculate_statistics aixs box start_year end_year ds).annual_frequency = 0 ∧
      (API.calculate_statistics aixs box start_year end_year ds).qualifying_annual_frequency = 0) ∧
    (end_year - start_year + 1 ≠ 0 →
      (Flask.calculate_statistics ixs box start_year end_year trig ds).annual_frequency =
        pyRound ((ixs.length : ℚ) / ((end_year - start_year + 1 : ℤ) : ℚ)) 4) := by
  refine ⟨?_, ?_, ?_⟩
  · intro h
    refine ⟨?_, ?_, ?_, ?_⟩ <;>
      simp [Flask.calculate_statistics, FlaskEq.calculate_box_statistics, h,
        pyRound_zero]
  · intro h
    have h' : ¬ (end_year - start_year + 1 > 0) := by omega
    constructor <;> simp [API.calculate_statistics, h']
  · intro h
    simp [Flask.calculate_statistics, h]

/-- Claim C2 witness: the amended statement instantiated at a concrete
zero-length and negative-length year range. -/
theorem claim_C2_amended_witness :
    ((Flask.calculate_statistics [] boxA 2020 2019 none "ds").annual_frequency = 0 ∧
     (Flask.calculate_statistics [] boxA 2020 2019 none "ds").qualifying_annual_frequency = 0 ∧
     (FlaskEq.calculate_box_statistics [] eqBoxA 2020 2019 none "ds").annual_frequency = 0 ∧
     (FlaskEq.calculate_box_statistics [] eqBoxA 2020 2019 none "ds").qualifying_annual_frequency = 0) ∧
    ((API.calculate_statistics [] boxA 2020 2018 "ds").annual_frequency = 0 ∧
     (API.calculate_statistics [] boxA 2020 2018 "ds").qualifying_annual_frequency = 0) ∧
    (Flask.calculate_statistics [] boxA 2020 2018 none "ds").annual_frequency =
      pyRound ((([] : List Flask.BoxIntersection).length : ℚ) /
        ((2018 - 2020 + 1 : ℤ) : ℚ)) 4 :=
  ⟨(claim_C2_amended [] [] [] boxA eqBoxA 2020 2019 none none "ds").1 (by norm_num),
   (claim_C2_amended [] [] [] boxA eqBoxA 2020 2018 none none "ds").2.1 (by norm_num),
   (claim_C2_amended [] [] [] boxA eqBoxA 2020 2018 none none "ds").2.2 (by norm_num)⟩

/-- Claim C3 counterexample: the claim asserts `trigger_probability ∈
[0, 1)` for all inputs, including arbitrary `start_year`/`end_year`.  In
the Flask hurricane service, a reversed year range makes the qualifying
annual frequency `-1`, and the trigger probability `1 - e^1 < 0` — outside
`[0, 1)`. -/
theorem claim_C3_counterexample :
    (Flask.calculate_statistics [⟨"b1", "AL062020", fp1, none, 150, 2⟩] boxA
        2020 2018 none "ibtracs").qualifying_annual_frequency = -1 ∧
    Flask.trigger_probability
      (((Flask.calculate_statistics [⟨"b1", "AL062020", fp1, none, 150, 2⟩] boxA
          2020 2018 none "ibtracs").qualifying_annual_frequency : ℚ) : ℝ) < 0 := by
  have hq : (Flask.calculate_statistics [⟨"b1", "AL062020", fp1, none, 150, 2⟩] boxA
      2020 2018 none "ibtracs").qualifying_annual_frequency = -1 := by
    norm_num [Flask.calculate_statistics, Flask.filter_by_trigger_criteria,
      pyRound, rndHalfToEven]
  refine ⟨hq, ?_⟩
  rw [hq]
  rw [show (((-1 : ℚ)) : ℝ) = -1 by norm_num]
  rw [flask_trigger_probability_eq]
  have h1 : (2 : ℝ) ≤ Real.exp 1 := by
    have := Real.add_one_le_exp (1 : ℝ)
    linarith
  simp only [neg_neg]
  linarith

/-- Claim C3 (amended): in every implementation the trigger probability
equals `1 - e^(-λ)` for `λ` the qualifying annual frequency (for the
FastAPI service, for positive `λ`, with 0 returned for all `λ ≤ 0`), is
exactly 0 at `λ = 0`, and is monotone non-decreasing in `λ`; it lies in
`[0, 1)` whenever `λ ≥ 0` (for the FastAPI service, for all `λ`), but the
Flask services produce a negative probability when a reversed year range
makes `λ` negative. -/
theorem claim_C3_amended :
    (∀ x : ℝ, Flask.trigger_probability x = 1 - Real.exp (-x)) ∧
    (∀ x : ℝ, FlaskEq.trigger_probability x = 1 - Real.exp (-x)) ∧
    (∀ x : ℝ, 0 < x → API.trigger_probability x = 1 - Real.exp (-x)) ∧
    Monotone Flask.trigger_probability ∧
    Monotone API.trigger_probability ∧
    (∀ x : ℝ, 0 ≤ x → 0 ≤ Flask.trigger_probability x) ∧
    (∀ x : ℝ, Flask.trigger_probability x < 1) ∧
    (∀ x : ℝ, 0 ≤ API.trigger_probability x ∧ API.trigger_probability x < 1) ∧
    Flask.trigger_probability 0 = 0 ∧
    FlaskEq.trigger_probability 0 = 0 ∧
    (∀ x : ℝ, x ≤ 0 → API.trigger_probability x = 0) := by
  refine ⟨flask_trigger_probability_eq, flaskeq_trigger_probability_eq, ?_,
    flask_trigger_probability_mono, api_trigger_probability_mono,
    fun x hx => flask_trigger_probability_nonneg hx,
    flask_trigger_probability_lt_one,
    fun x => ⟨api_trigger_probability_nonneg x, api_trigger_probability_lt_one x⟩,
    by simp [Flask.trigger_probability], by simp [FlaskEq.trigger_probability], ?_⟩
  · intro x hx
    simp [API.trigger_probability, hx]
  · intro x hx
    have : ¬ (x > 0) := by linarith
    simp [API.trigger_probability, this]

/-- Claim C3 witness: the amended statement at `λ = 1`: all three
probabilities agree with `1 - e^(-1)` and the Flask probability at the
non-negative frequency 1 is non-negative and below 1. -/
theorem claim_C3_amended_witness :
    API.trigger_probability 1 = 1 - Real.exp (-1) ∧
    0 ≤ Flask.trigger_probability 1 ∧
    Flask.trigger_probability 1 < 1 ∧
    API.trigger_probability (-1) = 0 ∧
    Flask.trigger_probability 0 ≤ Flask.trigger_probability 1 ∧
    API.trigger_probability 0 ≤ API.trigger_probability 1 :=
  ⟨claim_C3_amended.2.2.1 1 (by norm_num),
   claim_C3_amended.2.2.2.2.2.1 1 (by norm_num),
   claim_C3_amended.2.2.2.2.2.2.1 1,
   claim_C3_amended.2.2.2.2.2.2.2.2.2.2 (-1) (by norm_num),
   claim_C3_amended.2.2.2.1 (by norm_num : (0 : ℝ) ≤ 1),
   claim_C3_amended.2.2.2.2.1 (by norm_num : (0 : ℝ) ≤ 1)⟩

theorem flask_check_isSome (hh : Flask.HistoricalHurricane) (box : BoundingBox)
    (hex : ∃ pt ∈ hh.track, Flask.point_in_box pt.latitude pt.longitude box = true) :
    (Flask.check_track_intersection hh box).isSome = true := by
  have h := flask_scan_finds box hh.track none 0 hex
  unfold Flask.check_track_intersection
  rcases hs : Flask.scan_track box none none 0 hh.track with ⟨entry, ex, m⟩
  rw [hs] at h
  cases entry with
  | none => simp at h
  | some e => rfl

theorem flask_check_category (hh : Flask.HistoricalHurricane) (box : BoundingBox)
    (r : Flask.BoxIntersection)
    (hc : Flask.check_track_intersection hh box = some r) :
    r.category_at_crossing = r.entry_point.category := by
  unfold Flask.check_track_intersection at hc
  rcases hs : Flask.scan_track box none none 0 hh.track with ⟨entry, ex, m⟩
  rw [hs] at hc
  cases entry with
  | none => exact absurd hc (by simp)
  | some e =>
    cases hc
    rfl

/-- Claim C5 counterexample: for the storm `strm3` (one in-box point `fp1`
between outside points `fp0` and `fp2`), the Flask service reports
`exit_point = fp1` — the in-box point itself, not the point just after
leaving (`fp2`) as the claim states; and for the FastAPI storm `apStorm`
the reported `category_at_crossing` is 5 (derived from the in-box maximum
wind 150) while the category at the entry point (wind 70) is 1. -/
theorem claim_C5_counterexample :
    Flask.check_track_intersection strm3 boxA =
      some ⟨"b1", "AL012020", fp1, some fp1, 150, 2⟩ ∧
    Flask.point_in_box fp1.latitude fp1.longitude boxA = true ∧
    Flask.point_in_box fp2.latitude fp2.longitude boxA = false ∧
    fp1 ≠ fp2 ∧
    API.find_box_intersections [apStorm] boxA =
      [⟨"AL032020", ap1, some ap2, 150, some 930, 5⟩] ∧
    API.wind_to_category ap1.wind_knots = 1 ∧
    (5 : ℤ) ≠ 1 := by
  refine ⟨?_, ?_, ?_, ?_, ?_, ?_, by norm_num⟩
  · norm_num [Flask.check_track_intersection, Flask.scan_track, Flask.point_in_box,
      Flask.segment_intersects_box, Flask.segments_intersect, Flask.cross,
      boxA, fp0, fp1, fp2, strm3]
  · norm_num [Flask.point_in_box, fp1, boxA]
  · norm_num [Flask.point_in_box, fp2, boxA]
  · norm_num [fp1, fp2, Flask.HurricaneTrackPoint.mk.injEq]
  · norm_num [API.find_box_intersections, API.check_track_intersection,
      API.scan_track, API.scan_step, API.point_in_box, API.wind_to_category,
      boxA, ap0, ap1, ap1b, ap2, apStorm, List.foldl, List.filterMap]
  · norm_num [API.wind_to_category, ap1]

/-- Claim C5 (amended): for every hurricane whose track has at least one
point inside the box, an intersection record is returned.  In the Flask
service its `category_at_crossing` is the stored category of its entry
point, and its `exit_point` is the last in-box point before leaving (as
witnessed on `strm3`), not the point just after leaving; in the FastAPI
service the `exit_point` is the point just after leaving (witnessed on
`apStorm`) but `category_at_crossing` is `wind_to_category` of the in-box
maximum intensity, not the category at the entry point. -/
theorem claim_C5_amended :
    (∀ (hh : Flask.HistoricalHurricane) (box : BoundingBox),
      (∃ pt ∈ hh.track, Flask.point_in_box pt.latitude pt.longitude box = true) →
      (Flask.check_track_intersection hh box).isSome = true) ∧
    (∀ (hh : Flask.HistoricalHurricane) (box : BoundingBox) (r : Flask.BoxIntersection),
      Flask.check_track_intersection hh box = some r →
      r.category_at_crossing = r.entry_point.category) ∧
    (∀ (box : BoundingBox) (hs : List API.HistoricalHurricane)
      (ix : API.BoxIntersectionRecord),
      ix ∈ API.find_box_intersections hs box →
      ix.category_at_crossing = API.wind_to_category ix.max_intensity_in_box) ∧
    (Flask.check_track_intersection strm3 boxA).map (fun r => r.exit_point) =
      some (some fp1) ∧
    API.check_track_intersection apStorm.track boxA = some (ap1, some ap2, 150, some 930) := by
  refine ⟨flask_check_isSome, flask_check_category,
    fun box hs ix h => api_category_from_max_intensity box hs ix h, ?_, ?_⟩
  · norm_num [Flask.check_track_intersection, Flask.scan_track, Flask.point_in_box,
      Flask.segment_intersects_box, Flask.segments_intersect, Flask.cross,
      boxA, fp0, fp1, fp2, strm3]
  · norm_num [API.check_track_intersection, API.scan_track, API.scan_step,
      API.point_in_box, boxA, ap0, ap1, ap1b, ap2, apStorm, List.foldl]

/-- Claim C5 witness: the amended statement instantiated on the concrete
storms — `strm3` has an in-box point, so the Flask analysis returns a
record; the crossing-category laws applied to the concretely computed
records. -/
theorem claim_C5_amended_witness :
    (Flask.check_track_intersection strm3 boxA).isSome = true ∧
    (⟨"b1", "AL012020", fp1, some fp1, 150, 2⟩ : Flask.BoxIntersection).category_at_crossing =
      (⟨"b1", "AL012020", fp1, some fp1, 150, 2⟩ : Flask.BoxIntersection).entry_point.category ∧
    (⟨"AL032020", ap1, some ap2, 150, some 930, 5⟩ : API.BoxIntersectionRecord).category_at_crossing =
      API.wind_to_category
        (⟨"AL032020", ap1, some ap2, 150, some 930, 5⟩ : API.BoxIntersectionRecord).max_intensity_in_box := by
  refine ⟨claim_C5_amended.1 strm3 boxA ⟨fp1, by simp [strm3],
      by norm_num [Flask.point_in_box, fp1, boxA]⟩,
    claim_C5_amended.2.1 strm3 boxA _ ?_,
    claim_C5_amended.2.2.1 boxA [apStorm] _ ?_⟩
  · norm_num [Flask.check_track_intersection, Flask.scan_track, Flask.point_in_box,
      Flask.segment_intersects_box, Flask.segments_intersect, Flask.cross,
      boxA, fp0, fp1, fp2, strm3]
  · rw [show API.find_box_intersections [apStorm] boxA =
        [⟨"AL032020", ap1, some ap2, 150, some 930, 5⟩] from by
      norm_num [API.find_box_intersections, API.check_track_intersection,
        API.scan_track, API.scan_step, API.point_in_box, API.wind_to_category,
        boxA, ap0, ap1, ap1b, ap2, apStorm, List.foldl, List.filterMap]]
    exact List.mem_singleton_self _

/-- Claim C6 counterexample: the FastAPI scanner does not stop at the
first inside-to-outside transition.  `reentryStorm` enters `boxA` at
`bq0` (wind 50), leaves at `bq1`, re-enters at `bq2` (wind 140) and
leaves at `bq3`; the returned record has entry `bq2` and max intensity
140 — the later excursion overwrote the entry point and contributed the
intensity, contradicting the claim that only the first excursion
determines the record. -/
theorem claim_C6_counterexample :
    API.check_track_intersection reentryStorm.track boxA =
      some (bq2, some bq3, 140, some 940) ∧
    API.point_in_box bq0.latitude bq0.longitude boxA = true ∧
    API.point_in_box bq1.latitude bq1.longitude boxA = false ∧
    bq2 ≠ bq0 ∧
    (140 : ℤ) ≠ 50 := by
  refine ⟨?_, ?_, ?_, ?_, by norm_num⟩
  · norm_num [API.check_track_intersection, API.scan_track, API.scan_step,
      API.point_in_box, boxA, bq0, bq1, bq2, bq3, reentryStorm, List.foldl]
  · norm_num [API.point_in_box, bq0, boxA]
  · norm_num [API.point_in_box, bq1, boxA]
  · norm_num [bq2, bq0, API.TrackPoint.mk.injEq]

/-- Claim C6 (amended): the Flask scanner stops at the first
inside-to-outside transition — once a record with an exit point is
produced, appending any further track points (a re-entry) leaves the
record unchanged; the FastAPI scanner keeps scanning, so a re-entry
overwrites entry/exit with the final excursion's points and the in-box
max intensity accumulates over every in-box point of the whole track (as
witnessed on `reentryStorm`); in both services each storm contributes at
most one intersection record per box per call. -/
theorem claim_C6_amended :
    (∀ (box : BoundingBox) (hh hh2 : Flask.HistoricalHurricane)
      (extra : List Flask.HurricaneTrackPoint) (r : Flask.BoxIntersection),
      hh2.storm_id = hh.storm_id → hh2.track = hh.track ++ extra →
      Flask.check_track_intersection hh box = some r →
      r.exit_point.isSome = true →
      Flask.check_track_intersection hh2 box = some r) ∧
    (∀ (box : BoundingBox) (hs : List Flask.HistoricalHurricane),
      (Flask.find_box_intersections hs box).length ≤ hs.length) ∧
    (∀ (box : BoundingBox) (hs : List API.HistoricalHurricane),
      (API.find_box_intersections hs box).length ≤ hs.length) ∧
    (∀ (box : BoundingBox) (track : List API.TrackPoint),
      (API.scan_track box track).max_intensity =
        track.foldl
          (fun m pt =>
            if API.point_in_box pt.latitude pt.longitude box = true then
              (if pt.wind_knots > m then pt.wind_knots else m)
            else m) 0) ∧
    API.check_track_intersection reentryStorm.track boxA =
      some (bq2, some bq3, 140, some 940) := by
  refine ⟨?_, ?_, ?_, ?_, ?_⟩
  · intro box hh hh2 extra r hsid htr hc hex
    unfold Flask.check_track_intersection at hc ⊢
    rw [htr, hsid]
    rcases hs : Flask.scan_track box none none 0 hh.track with ⟨entry, ex, m⟩
    rw [hs] at hc
    cases entry with
    | none => exact absurd hc (by simp)
    | some e =>
      cases hc
      have hbreak : (Flask.scan_track box none none 0 hh.track).2.1.isSome = true := by
        rw [hs]
        exact hex
      rw [flask_scan_break box hh.track none none 0 extra hbreak, hs]
  · intro box hs
    exact List.length_filterMap_le _ _
  · intro box hs
    exact List.length_filterMap_le _ _
  · intro box track
    exact api_scan_max_intensity box track ⟨none, none, 0, none, false⟩
  · norm_num [API.check_track_intersection, API.scan_track, API.scan_step,
      API.point_in_box, boxA, bq0, bq1, bq2, bq3, reentryStorm, List.foldl]

/-- Claim C6 witness: appending a further in-box point to `strm3` after
its completed excursion does not change the Flask record. -/
theorem claim_C6_amended_witness :
    Flask.check_track_intersection ⟨"AL012020", strm3.track ++ [fp1]⟩ boxA =
      some ⟨"b1", "AL012020", fp1, some fp1, 150, 2⟩ :=
  claim_C6_amended.1 boxA strm3 ⟨"AL012020", strm3.track ++ [fp1]⟩ [fp1]
    ⟨"b1", "AL012020", fp1, some fp1, 150, 2⟩ rfl rfl
    (by norm_num [Flask.check_track_intersection, Flask.scan_track, Flask.point_in_box,
      Flask.segment_intersects_box, Flask.segments_intersect, Flask.cross,
      boxA, fp0, fp1, fp2, strm3]) rfl

def aq0 : API.TrackPoint := ⟨some 7, 25, -101, 60, some 990⟩

def aq1 : API.TrackPoint := ⟨some 7, 19, -99, 50, some 1000⟩

/-- Claim C7 counterexample: on a track with no point inside the box, the
Flask service does not run a separate segment phase after the scan — the
segment test is interleaved into the single scan, and a crossing segment
sets `entry_point` to the segment's SECOND endpoint only.  For
`clipStorm` (both points outside `boxA`, segment crossing it) the record
has entry `cq1` (not the first endpoint `cq0`) and max intensity 50 (the
second endpoint's wind, not the max 60 of the two endpoints). -/
theorem claim_C7_counterexample :
    Flask.point_in_box cq0.latitude cq0.longitude boxA = false ∧
    Flask.point_in_box cq1.latitude cq1.longitude boxA = false ∧
    Flask.segment_intersects_box cq0.latitude cq0.longitude cq1.latitude
      cq1.longitude boxA = true ∧
    Flask.check_track_intersection clipStorm boxA =
      some ⟨"b1", "AL022020", cq1, none, 50, 0⟩ ∧
    cq1 ≠ cq0 ∧
    max cq0.wind_knots cq1.wind_knots = 60 ∧
    (50 : ℤ) ≠ 60 := by
  refine ⟨?_, ?_, ?_, ?_, ?_, ?_, by norm_num⟩
  · norm_num [Flask.point_in_box, cq0, boxA]
  · norm_num [Flask.point_in_box, cq1, boxA]
  · norm_num [Flask.segment_intersects_box, Flask.segments_intersect, Flask.cross,
      cq0, cq1, boxA]
  · norm_num [Flask.check_track_intersection, Flask.scan_track, Flask.point_in_box,
      Flask.segment_intersects_box, Flask.segments_intersect, Flask.cross,
      boxA, cq0, cq1, clipStorm]
  · norm_num [cq0, cq1, Flask.HurricaneTrackPoint.mk.injEq]
  · norm_num [cq0, cq1]

/-- Claim C7 (amended): in the FastAPI service the claim holds as stated:
when no track point is inside the box the result is exactly the segment
phase, which walks consecutive pairs and, at the first crossing segment,
synthesizes an intersection from that segment's two endpoints with the
max of their winds and the lesser known pressure; the Flask service
instead interleaves its segment test into the single scan and sets only
the entry point, to the crossing segment's second endpoint (witnessed on
`clipStorm`). -/
theorem claim_C7_amended :
    (∀ (box : BoundingBox) (track : List API.TrackPoint),
      (∀ pt ∈ track, API.point_in_box pt.latitude pt.longitude box = false) →
      API.check_track_intersection track box = API.segment_phase box track) ∧
    (∀ (box : BoundingBox) (p1 p2 : API.TrackPoint) (rest : List API.TrackPoint),
      API.segment_intersects_box p1.latitude p1.longitude p2.latitude p2.longitude box = true →
      API.segment_phase box (p1 :: p2 :: rest) =
        some (p1, some p2, max p1.wind_knots p2.wind_knots,
          match p1.pressure_mb, p2.pressure_mb with
          | some a, some b => some (min a b)
          | some a, none => some a
          | none, some b => some b
          | none, none => none)) ∧
    (∀ (box : BoundingBox) (p1 p2 : API.TrackPoint) (rest : List API.TrackPoint),
      API.segment_intersects_box p1.latitude p1.longitude p2.latitude p2.longitude box = false →
      API.segment_phase box (p1 :: p2 :: rest) = API.segment_phase box (p2 :: rest)) ∧
    Flask.check_track_intersection clipStorm boxA =
      some ⟨"b1", "AL022020", cq1, none, 50, 0⟩ := by
  refine ⟨api_check_no_inside, ?_, ?_, ?_⟩
  · intro box p1 p2 rest h
    simp [API.segment_phase, h]
  · intro box p1 p2 rest h
    simp [API.segment_phase, h]
  · norm_num [Flask.check_track_intersection, Flask.scan_track, Flask.point_in_box,
      Flask.segment_intersects_box, Flask.segments_intersect, Flask.cross,
      boxA, cq0, cq1, clipStorm]

/-- Claim C7 witness: the amended statement on the concrete clip pair
`aq0`, `aq1` (both outside `boxA`): the check reduces to the segment
phase, and the crossing segment synthesizes the claimed record. -/
theorem claim_C7_amended_witness :
    API.check_track_intersection [aq0, aq1] boxA = API.segment_phase boxA [aq0, aq1] ∧
    API.segment_phase boxA [aq0, aq1] = some (aq0, some aq1, 60, some 990) ∧
    API.segment_phase boxA [aq1, aq1] = API.segment_phase boxA [aq1] := by
  refine ⟨?_, ?_, ?_⟩
  · refine claim_C7_amended.1 boxA [aq0, aq1] ?_
    intro pt hpt
    rcases List.mem_cons.mp hpt with rfl | hpt
    · norm_num [API.point_in_box, aq0, boxA]
    · rcases List.mem_cons.mp hpt with rfl | hpt
      · norm_num [API.point_in_box, aq1, boxA]
      · simp at hpt
  · rw [claim_C7_amended.2.1 boxA aq0 aq1 []
      (by norm_num [API.segment_intersects_box, API.segments_intersect, API.ccw,
        aq0, aq1, boxA])]
    norm_num [aq0, aq1]
  · exact claim_C7_amended.2.2.1 boxA aq1 aq1 []
      (by norm_num [API.segment_intersects_box, API.segments_intersect, API.ccw,
        aq1, boxA])

def invEqBox : FlaskEq.EarthquakeBoundingBox := ⟨"ie", "inv eq", 20, 30, -80, -100, none⟩

/-- Claim C8 counterexample: an inverted box contains no points, but the
claim that the hurricane intersection finder then produces no records is
false: the segment test still treats the inverted box's four edge lines
as segments, so `invStorm` (crossing those lines) produces an
intersection record and a box statistics total of 1, not 0. -/
theorem claim_C8_counterexample :
    invBox.north < invBox.south ∧
    Flask.find_box_intersections [invStorm] invBox =
      [⟨"ib", "AL052020", rf1, none, 80, 1⟩] ∧
    (Flask.calculate_statistics (Flask.find_box_intersections [invStorm] invBox)
        invBox 2000 2009 none "ibtracs").total_hurricanes = 1 := by
  have hfind : Flask.find_box_intersections [invStorm] invBox =
      [⟨"ib", "AL052020", rf1, none, 80, 1⟩] := by
    norm_num [Flask.find_box_intersections, Flask.check_track_intersection,
      Flask.scan_track, Flask.point_in_box, Flask.segment_intersects_box,
      Flask.segments_intersect, Flask.cross, invBox, rf0, rf1, invStorm,
      List.filterMap]
  refine ⟨by norm_num [invBox], hfind, ?_⟩
  rw [hfind]
  rfl

/-- Claim C8 (amended): the core does not crash on an inverted box
(north < south) — the embedding is total; no point is ever inside such a
box, so the earthquake in-box filter returns the empty list; but the
hurricane services' segment fallback still tests the inverted box's four
edge segments, so a track segment crossing those edge lines still
produces an intersection record (witnessed by the FastAPI segment phase
on `[ar0, ar1]`). -/
theorem claim_C8_amended (box : BoundingBox) (ebox : FlaskEq.EarthquakeBoundingBox)
    (eqs : List FlaskEq.HistoricalEarthquake) (lat lon : ℚ) :
    (box.north < box.south →
      Flask.point_in_box lat lon box = false ∧
      API.point_in_box lat lon box = false) ∧
    (ebox.north < ebox.south → FlaskEq.find_earthquakes_in_box eqs ebox = []) ∧
    API.check_track_intersection [ar0, ar1] invBox = some (ar0, some ar1, 80, none) := by
  refine ⟨?_, ?_, ?_⟩
  · intro h
    have hno : ¬(box.south ≤ lat ∧ lat ≤ box.north ∧ box.west ≤ lon ∧ lon ≤ box.east) := by
      rintro ⟨h1, h2, -⟩
      linarith
    exact ⟨by simp [Flask.point_in_box, hno], by simp [API.point_in_box, hno]⟩
  · intro h
    unfold FlaskEq.find_earthquakes_in_box
    apply List.filter_eq_nil_iff.mpr
    intro e _
    have hno : ¬(ebox.south ≤ e.latitude ∧ e.latitude ≤ ebox.north ∧
        ebox.west ≤ e.longitude ∧ e.longitude ≤ ebox.east) := by
      rintro ⟨h1, h2, -⟩
      linarith
    simp [hno]
  · norm_num [API.check_track_intersection, API.scan_track, API.scan_step,
      API.point_in_box, API.segment_phase, API.segment_intersects_box,
      API.segments_intersect, API.ccw, invBox, ar0, ar1, List.foldl]

/-- Claim C8 witness: the amended statement at the concrete inverted
boxes: no point is inside, and the earthquake filter over a non-empty
event list returns the empty list. -/
theorem claim_C8_amended_witness :
    (Flask.point_in_box 25 (-90) invBox = false ∧
     API.point_in_box 25 (-90) invBox = false) ∧
    FlaskEq.find_earthquakes_in_box [eqk1] invEqBox = [] :=
  ⟨(claim_C8_amended invBox invEqBox [eqk1] 25 (-90)).1 (by norm_num [invBox]),
   (claim_C8_amended invBox invEqBox [eqk1] 25 (-90)).2.1 (by norm_num [invEqBox])⟩

/-- Claim C10 counterexample: with a reversed year range the Flask
earthquake service divides both counts by the negative `years_analyzed`,
which REVERSES the frequency inequality: two in-box events of which one
qualifies under the magnitude-6 trigger give `annual_frequency = -2` and
`qualifying_annual_frequency = -1`, so `qualifying_annual_frequency ≤
annual_frequency` fails even though `qualifying ≤ total` holds. -/
theorem claim_C10_counterexample :
    (FlaskEq.calculate_box_statistics [eqk1, eqk2] eqBoxA 2020 2018
        (some trigM6) "usgs_worldwide").total_earthquakes = 2 ∧
    (FlaskEq.calculate_box_statistics [eqk1, eqk2] eqBoxA 2020 2018
        (some trigM6) "usgs_worldwide").qualifying_earthquakes = 1 ∧
    (FlaskEq.calculate_box_statistics [eqk1, eqk2] eqBoxA 2020 2018
        (some trigM6) "usgs_worldwide").annual_frequency = -2 ∧
    (FlaskEq.calculate_box_statistics [eqk1, eqk2] eqBoxA 2020 2018
        (some trigM6) "usgs_worldwide").qualifying_annual_frequency = -1 ∧
    ¬((FlaskEq.calculate_box_statistics [eqk1, eqk2] eqBoxA 2020 2018
        (some trigM6) "usgs_worldwide").qualifying_annual_frequency ≤
      (FlaskEq.calculate_box_statistics [eqk1, eqk2] eqBoxA 2020 2018
        (some trigM6) "usgs_worldwide").annual_frequency) := by
  have hq : (FlaskEq.calculate_box_statistics [eqk1, eqk2] eqBoxA 2020 2018
      (some trigM6) "usgs_worldwide").qualifying_annual_frequency = -1 := by
    norm_num [FlaskEq.calculate_box_statistics, FlaskEq.filter_by_trigger_criteria,
      FlaskEq.EarthquakeTriggerCriteria.matches, List.filter, eqk1, eqk2, trigM6,
      pyRound, rndHalfToEven]
  have ha : (FlaskEq.calculate_box_statistics [eqk1, eqk2] eqBoxA 2020 2018
      (some trigM6) "usgs_worldwide").annual_frequency = -2 := by
    norm_num [FlaskEq.calculate_box_statistics, FlaskEq.filter_by_trigger_criteria,
      pyRound, rndHalfToEven]
  refine ⟨rfl, ?_, ha, hq, ?_⟩
  · norm_num [FlaskEq.calculate_box_statistics, FlaskEq.filter_by_trigger_criteria,
      FlaskEq.EarthquakeTriggerCriteria.matches, List.filter, eqk1, eqk2, trigM6]
  · rw [hq, ha]
    norm_num

/-- Claim C10 (amended): in every statistics record the qualifying count
is between 0 and the total count, with equality when the box has no
trigger (the qualifying set is the trigger filter of the in-box set);
`qualifying_annual_frequency ≤ annual_frequency` holds whenever
`years_analyzed ≥ 0` in the Flask services (a negative `years_analyzed`
reverses it), and unconditionally in the FastAPI service (which returns
0 for non-positive year counts). -/
theorem claim_C10_amended
    (ixs : List Flask.BoxIntersection) (eqs : List FlaskEq.HistoricalEarthquake)
    (aixs : List API.BoxIntersectionRecord) (box abox : BoundingBox)
    (ebox : FlaskEq.EarthquakeBoundingBox) (start_year end_year : ℤ)
    (trig : Option TriggerCriteria) (etrig : Option FlaskEq.EarthquakeTriggerCriteria)
    (ds : String) :
    ((Flask.calculate_statistics ixs box start_year end_year trig ds).qualifying_hurricanes ≤
        (Flask.calculate_statistics ixs box start_year end_year trig ds).total_hurricanes ∧
      (trig = none →
        (Flask.calculate_statistics ixs box start_year end_year trig ds).qualifying_hurricanes =
          (Flask.calculate_statistics ixs box start_year end_year trig ds).total_hurricanes) ∧
      (0 ≤ end_year - start_year + 1 →
        (Flask.calculate_statistics ixs box start_year end_year trig ds).qualifying_annual_frequency ≤
          (Flask.calculate_statistics ixs box start_year end_year trig ds).annual_frequency)) ∧
    ((FlaskEq.calculate_box_statistics eqs ebox start_year end_year etrig ds).qualifying_earthquakes ≤
        (FlaskEq.calculate_box_statistics eqs ebox start_year end_year etrig ds).total_earthquakes ∧
      (etrig = none →
        (FlaskEq.calculate_box_statistics eqs ebox start_year end_year etrig ds).qualifying_earthquakes =
          (FlaskEq.calculate_box_statistics eqs ebox start_year end_year etrig ds).total_earthquakes) ∧
      (0 ≤ end_year - start_year + 1 →
        (FlaskEq.calculate_box_statistics eqs ebox start_year end_year etrig ds).qualifying_annual_frequency ≤
          (FlaskEq.calculate_box_statistics eqs ebox start_year end_year etrig ds).annual_frequency)) ∧
    ((API.calculate_statistics aixs abox start_year end_year ds).qualifying_hurricanes ≤
        (API.calculate_statistics aixs abox start_year end_year ds).total_hurricanes ∧
      (abox.trigger = none →
        (API.calculate_statistics aixs abox start_year end_year ds).qualifying_hurricanes =
          (API.calculate_statistics aixs abox start_year end_year ds).total_hurricanes) ∧
      (API.calculate_statistics aixs abox start_year end_year ds).qualifying_annual_frequency ≤
        (API.calculate_statistics aixs abox start_year end_year ds).annual_frequency) := by
  refine ⟨⟨?_, ?_, ?_⟩, ⟨?_, ?_, ?_⟩, ⟨?_, ?_, ?_⟩⟩
  · exact flask_filter_length_le ixs trig
  · rintro rfl
    rfl
  · intro hy
    simp only [Flask.calculate_statistics]
    apply pyRound_mono
    by_cases h0 : end_year - start_year + 1 = 0
    · simp [h0]
    · simp only [ne_eq, h0, not_false_eq_true, if_true]
      have hy' : (0 : ℚ) < ((end_year - start_year + 1 : ℤ) : ℚ) := by
        have : 0 < end_year - start_year + 1 := lt_of_le_of_ne hy (Ne.symm h0)
        exact_mod_cast this
      refine div_le_div_of_nonneg_right ?_ hy'.le
      exact_mod_cast Nat.cast_le.mpr (flask_filter_length_le ixs trig)
  · exact flaskeq_filter_length_le eqs etrig
  · rintro rfl
    rfl
  · intro hy
    simp only [FlaskEq.calculate_box_statistics]
    apply pyRound_mono
    by_cases h0 : end_year - start_year + 1 = 0
    · simp [h0]
    · simp only [ne_eq, h0, not_false_eq_true, if_true]
      have hy' : (0 : ℚ) < ((end_year - start_year + 1 : ℤ) : ℚ) := by
        have : 0 < end_year - start_year + 1 := lt_of_le_of_ne hy (Ne.symm h0)
        exact_mod_cast this
      refine div_le_div_of_nonneg_right ?_ hy'.le
      exact_mod_cast Nat.cast_le.mpr (flaskeq_filter_length_le eqs etrig)
  · exact api_filter_length_le aixs abox.trigger
  · intro htrig
    simp [API.calculate_statistics, htrig, API.filter_by_trigger_criteria]
  · simp only [API.calculate_statistics]
    by_cases hpos : end_year - start_year + 1 > 0
    · simp only [hpos, if_true]
      have hy' : (0 : ℚ) < ((end_year - start_year + 1 : ℤ) : ℚ) := by exact_mod_cast hpos
      refine div_le_div_of_nonneg_right ?_ hy'.le
      exact_mod_cast Nat.cast_le.mpr (api_filter_length_le aixs abox.trigger)
    · simp [hpos]

/-- Claim C10 witness: the amended statement at a concrete trigger-free
analysis over a forward year range. -/
theorem claim_C10_amended_witness :
    (Flask.calculate_statistics [] boxA 2000 2009 none "ds").qualifying_hurricanes =
      (Flask.calculate_statistics [] boxA 2000 2009 none "ds").total_hurricanes ∧
    (Flask.calculate_statistics [] boxA 2000 2009 none "ds").qualifying_annual_frequency ≤
      (Flask.calculate_statistics [] boxA 2000 2009 none "ds").annual_frequency ∧
    (FlaskEq.calculate_box_statistics [eqk1] eqBoxA 2000 2009 none "ds").qualifying_annual_frequency ≤
      (FlaskEq.calculate_box_statistics [eqk1] eqBoxA 2000 2009 none "ds").annual_frequency ∧
    (API.calculate_statistics [] boxA 2000 2009 "ds").qualifying_annual_frequency ≤
      (API.calculate_statistics [] boxA 2000 2009 "ds").annual_frequency ∧
    (FlaskEq.calculate_box_statistics [eqk1] eqBoxA 2000 2009 none "ds").qualifying_earthquakes =
      (FlaskEq.calculate_box_statistics [eqk1] eqBoxA 2000 2009 none "ds").total_earthquakes ∧
    (API.calculate_statistics [] boxA 2000 2009 "ds").qualifying_hurricanes =
      (API.calculate_statistics [] boxA 2000 2009 "ds").total_hurricanes :=
  ⟨(claim_C10_amended [] [] [] boxA boxA eqBoxA 2000 2009 none none "ds").1.2.1 rfl,
   (claim_C10_amended [] [] [] boxA boxA eqBoxA 2000 2009 none none "ds").1.2.2 (by norm_num),
   (claim_C10_amended [] [eqk1] [] boxA boxA eqBoxA 2000 2009 none none "ds").2.1.2.2 (by norm_num),
   (claim_C10_amended [] [] [] boxA boxA eqBoxA 2000 2009 none none "ds").2.2.2.2,
   (claim_C10_amended [] [eqk1] [] boxA boxA eqBoxA 2000 2009 none none "ds").2.1.2.1 rfl,
   (claim_C10_amended [] [] [] boxA boxA eqBoxA 2000 2009 none none "ds").2.2.2.1 rfl⟩
